import Mathlib

/-!
Verification of the register decode/encode layer of the wago750-881 scripts.

The Python sources are embedded shallowly:
* 16-bit register words are `ℕ`, Python `int` values are `ℤ`;
* Python `float` arithmetic on sensor values is modelled over `ℚ`
  (all constants involved are exactly representable and the statements
  proved do not depend on binary rounding of doubles);
* `round(x, 2)` is modelled by `round2` below; Python uses round-half-even
  while Mathlib `round` is round-half-up, but no value appearing in any
  theorem of this file sits on a half-tie, so the two agree there;
* Python `v & 0xFF` on a (possibly negative) `int` equals the mathematical
  residue `v % 256`, and `~k` applied to an 8-bit quantity agrees with
  `0xFF ^^^ k`; both modelling choices are noted at their use sites;
* register reads/writes are made explicit: a read becomes a `List ℕ`
  argument, a performed write becomes a `WriteReq` value in a result list.
-/

/-- Model of Python `round(x, 2)`: round to two decimal places. -/
def round2 (x : ℚ) : ℚ :=
  round (x * 100) / 100

/-- A register write performed against the controller: target address and
the 16-bit words written there. -/
structure WriteReq where
  address : ℕ
  values : List ℕ
deriving DecidableEq

namespace Wagostatus

/-- From wagostatus.py: `to_uint(val)`, converts a stored signed value to
its unsigned 16-bit representative. -/
def to_uint (val : ℤ) : ℤ :=
  if val ≥ 0 then val else val + 65536

/-- From wagostatus.py: `to_int(val)`, converts an unsigned 16-bit word to
its signed interpretation. -/
def to_int (val : ℤ) : ℤ :=
  if val < 32768 then val else val - 65536

/-- From wagostatus.py main: `ww_on = not (qb0 & 0x02)` (inverted channel). -/
def ww_on (qb0 : ℕ) : Bool :=
  qb0 &&& 0x02 == 0

/-- From wagostatus.py main: `hk_on = not (qb0 & 0x04)` (inverted channel). -/
def hk_on (qb0 : ℕ) : Bool :=
  qb0 &&& 0x04 == 0

/-- From wagostatus.py main: `br_on = bool(qb0 & 0x08)` (normal channel). -/
def br_on (qb0 : ℕ) : Bool :=
  qb0 &&& 0x08 != 0

end Wagostatus

namespace Wagoglobal

/-- From wagoglobal.py: `to_int(val)`. -/
def to_int (val : ℤ) : ℤ :=
  if val < 32768 then val else val - 65536

/-- From wagoglobal.py: `to_uint(val)`. -/
def to_uint (val : ℤ) : ℤ :=
  if val ≥ 0 then val else val + 65536

/-- From wagoglobal.py main: `hk_on = not bool(qb0_phys & 0x04)`. -/
def hk_on (qb0 : ℕ) : Bool :=
  qb0 &&& 0x04 == 0

/-- From wagoglobal.py main: `ww_on = not bool(qb0_phys & 0x02)`. -/
def ww_on (qb0 : ℕ) : Bool :=
  qb0 &&& 0x02 == 0

/-- From wagoglobal.py main: `br_on = bool(qb0_phys & 0x08)` (Relais Schließer). -/
def br_on (qb0 : ℕ) : Bool :=
  qb0 &&& 0x08 != 0

end Wagoglobal

namespace Heizung2

/-- From heizung2.py: `calc_pt1000 = lambda r: round((r - 7134) / 25, 2)
if 4000 < r < 25000 else 0.0`. -/
def calc_pt1000 (r : ℕ) : ℚ :=
  if 4000 < r ∧ r < 25000 then round2 (((r : ℚ) - 7134) / 25) else 0

/-- From heizung2.py: `calc_boiler = lambda r: round((40536 - r) / 303.1, 2)
if 4000 < r < 45000 else 0.0`. -/
def calc_boiler (r : ℕ) : ℚ :=
  if 4000 < r ∧ r < 45000 then round2 ((40536 - (r : ℚ)) / 303.1) else 0

/-- From heizung2.py: `calc_solar = lambda r: round((r - 26402) / 60, 2)
if 4000 < r < 40000 else 0.0`. -/
def calc_solar (r : ℕ) : ℚ :=
  if 4000 < r ∧ r < 40000 then round2 (((r : ℚ) - 26402) / 60) else 0

/-- From heizung2.py `get_dint(registers, index)`: extracts a 32-bit signed
DINT from two 16-bit registers, `value = (high << 16) | low`, subtracting
`0x100000000` when the sign bit is set. Out-of-range list access is modelled
by `getD` with default 0 (the callers always pass in-range indices). -/
def get_dint (registers : List ℕ) (index : ℕ) : ℤ :=
  let low := registers.getD (index * 2) 0
  let high := registers.getD (index * 2 + 1) 0
  let value := (high <<< 16) ||| low
  if value ≥ 0x80000000 then (value : ℤ) - 0x100000000 else (value : ℤ)

/-- From heizung2.py `sanitize_reason_byte(value)`: clamps a reason value
to 0–255 for a TINYINT UNSIGNED column. Python `value & 0xFF` on an `int`
equals the mathematical residue `value % 256`, which is how the mask is
modelled here. -/
def sanitize_reason_byte (value : ℤ) : ℤ :=
  if value < 0 then value % 256
  else if value > 255 then value % 256
  else value

/-- From heizung2.py `read_reason_bytes`: the three reason bytes decoded
from the six registers read at ADDR_REASON_WW, each sanitized. The Modbus
read itself is abstracted into the `registers` argument. -/
def read_reason_bytes (registers : List ℕ) : ℤ × ℤ × ℤ :=
  (sanitize_reason_byte (get_dint registers 0),
   sanitize_reason_byte (get_dint registers 1),
   sanitize_reason_byte (get_dint registers 2))

/-- From heizung2.py `decode_reason_ww(r)`; `KNOWN_BITS = 0x01`. Python
`r & ~KNOWN_BITS` on the 8-bit reason domain equals `r &&& (0xFF ^^^ 0x01)`. -/
def decode_reason_ww (r : ℕ) : String :=
  if r &&& (0xFF ^^^ 0x01) ≠ 0 then "ACTUATOR"
  else if r &&& 0x01 ≠ 0 then "ΔT≥2°C"
  else "ΔT<2°C"

/-- From heizung2.py `decode_reason_hk(r)`; `KNOWN_BITS = 0x07`, causes
appended in the order Frost, Wärme, Override and joined with `+`. -/
def decode_reason_hk (r : ℕ) : String :=
  if r &&& (0xFF ^^^ 0x07) ≠ 0 then "ACTUATOR"
  else if r = 0 then "Aus"
  else
    String.intercalate "+"
      ((if r &&& 0x01 ≠ 0 then ["Frost"] else []) ++
       (if r &&& 0x02 ≠ 0 then ["Wärme"] else []) ++
       (if r &&& 0x04 ≠ 0 then ["Override"] else []))

/-- From heizung2.py `decode_reason_br(r)`; `KNOWN_BITS = 0x01`. -/
def decode_reason_br (r : ℕ) : String :=
  if r &&& (0xFF ^^^ 0x01) ≠ 0 then "ACTUATOR"
  else if r &&& 0x01 ≠ 0 then "HK aktiv"
  else "HK inaktiv"

end Heizung2

namespace Heizung3

/-- From heizung3.py `calc_pt1000(raw)`: returns 0.0 unless
`4000 <= raw <= 25000` (inclusive bounds, unlike heizung2.py). -/
def calc_pt1000 (raw : ℕ) : ℚ :=
  if ¬(4000 ≤ raw ∧ raw ≤ 25000) then 0
  else round2 (((raw : ℚ) - 7134) / 25)

/-- From heizung3.py `calc_ntc_solar(raw)`: returns 0.0 unless
`4000 <= raw <= 40000`. -/
def calc_ntc_solar (raw : ℕ) : ℚ :=
  if ¬(4000 ≤ raw ∧ raw ≤ 40000) then 0
  else round2 (((raw : ℚ) - 26402) / 60)

/-- From heizung3.py `calc_boiler(raw)`: returns 0.0 unless
`4000 <= raw <= 45000`. -/
def calc_boiler (raw : ℕ) : ℚ :=
  if ¬(4000 ≤ raw ∧ raw ≤ 45000) then 0
  else round2 ((40536 - (raw : ℚ)) / 303.1)

/-- Two uppercase hex digits of a byte, the `02X` field of the f-strings in
heizung3.py (the callers only pass values below 256). -/
def hexDigit (n : ℕ) : String :=
  match n with
  | 0 => "0" | 1 => "1" | 2 => "2" | 3 => "3"
  | 4 => "4" | 5 => "5" | 6 => "6" | 7 => "7"
  | 8 => "8" | 9 => "9" | 10 => "A" | 11 => "B"
  | 12 => "C" | 13 => "D" | 14 => "E" | _ => "F"

/-- Formats a byte as two uppercase hex digits. -/
def toHex2 (n : ℕ) : String :=
  hexDigit (n / 16 % 16) ++ hexDigit (n % 16)

/-- From heizung3.py `decode_reason_ww(reason)`; `KNOWN_BITS = 0x01`.
Python `reason & ~KNOWN_BITS` on the 8-bit domain is `reason &&& (0xFF ^^^ 0x01)`. -/
def decode_reason_ww (reason : ℕ) : String :=
  if reason &&& (0xFF ^^^ 0x01) ≠ 0 then
    "0x" ++ toHex2 reason ++ " - ACTUATOR-Logik (MIN_ONTIME/RUN_EVERY)"
  else if reason &&& 0x01 ≠ 0 then
    "0x" ++ toHex2 reason ++ " - ΔT ≥ 2.0°C → AN"
  else if reason = 0 then "0x00 - ΔT < 2.0°C → AUS"
  else "0x" ++ toHex2 reason ++ " - Unbekannt"

/-- From heizung3.py `decode_reason_hk(reason)`; `KNOWN_BITS = 0x07`,
causes collected in the order Frostschutz, Wärmebedarf, Override and
joined with a comma. -/
def decode_reason_hk (reason : ℕ) : String :=
  if reason &&& (0xFF ^^^ 0x07) ≠ 0 then
    "0x" ++ toHex2 reason ++ " - ACTUATOR-Logik (MIN_ONTIME/MIN_OFFTIME/RUN_EVERY)"
  else
    let reasons :=
      (if reason &&& 0x01 ≠ 0 then ["Frostschutz(AT<3°C)"] else []) ++
      (if reason &&& 0x02 ≠ 0 then ["Wärmebedarf"] else []) ++
      (if reason &&& 0x04 ≠ 0 then ["Override"] else [])
    if reason = 0 then "0x00 - AUS (keine Anforderung)"
    else "0x" ++ toHex2 reason ++ " - " ++ String.intercalate ", " reasons

/-- From heizung3.py `decode_reason_br(reason)`; `KNOWN_BITS = 0x01`. -/
def decode_reason_br (reason : ℕ) : String :=
  if reason &&& (0xFF ^^^ 0x01) ≠ 0 then
    "0x" ++ toHex2 reason ++ " - ACTUATOR-Logik (MIN_ONTIME/RUN_EVERY)"
  else if reason &&& 0x01 ≠ 0 then
    "0x" ++ toHex2 reason ++ " - HK aktiv"
  else if reason = 0 then "0x00 - HK inaktiv"
  else "0x" ++ toHex2 reason ++ " - Unbekannt"

/-- From heizung3.py `ModbusHelper.get_dint(registers, index)`: identical
to the heizung2.py helper. -/
def get_dint (registers : List ℕ) (index : ℕ) : ℤ :=
  let low := registers.getD (index * 2) 0
  let high := registers.getD (index * 2 + 1) 0
  let value := (high <<< 16) ||| low
  if value ≥ 0x80000000 then (value : ℤ) - 0x100000000 else (value : ℤ)

/-- From heizung3.py `ModbusHelper.write_dint`: the two 16-bit words sent
by `struct.pack('>i', value)` / `struct.unpack('>HH', ...)`, i.e. the high
and then the low word of the 32-bit two's-complement image of `value`
(the callers only pass values representable as i32, where `pack` is defined). -/
def write_dint_registers (value : ℤ) : List ℕ :=
  let u := (value % 4294967296).toNat
  [u / 65536, u % 65536]

/-- From heizung3.py `SPSReader.read_reason_bytes`: each reason is
`get_dint(...) & 0xFF`; the Python mask on an `int` equals `% 256`. -/
def read_reason_bytes (registers : List ℕ) : ℤ × ℤ × ℤ :=
  (get_dint registers 0 % 256,
   get_dint registers 1 % 256,
   get_dint registers 2 % 256)

/-- From heizung3.py `SPSReader.read_physical_outputs`: reads %QB0 and
extracts WW (bit 1), HK (bit 2), BR (bit 3) directly from the output byte,
with no polarity inversion. -/
def read_physical_outputs (registers : List ℕ) : Bool × Bool × Bool :=
  let output_byte := registers.getD 0 0 &&& 0xFF
  (output_byte &&& 0x02 != 0,
   output_byte &&& 0x04 != 0,
   output_byte &&& 0x08 != 0)

/-- From heizung3.py `run_sync` (override check): after reading six
registers at ADDR_WW_PUMPE, each pump's current DINT setpoint is compared
with the configured override and a corrective `write_dint` is issued only
on mismatch. The returned list holds the write calls performed, in order.
Addresses 12412/12414/12416 are CONFIG.ADDR_WW_PUMPE/ADDR_HK_PUMPE/ADDR_BRUNNEN. -/
def check_overrides (registers : List ℕ) (ww hk br : ℤ) : List WriteReq :=
  let current_ww := get_dint registers 0
  let current_hk := get_dint registers 1
  let current_br := get_dint registers 2
  (if current_ww ≠ ww then [⟨12412, write_dint_registers ww⟩] else []) ++
  (if current_hk ≠ hk then [⟨12414, write_dint_registers hk⟩] else []) ++
  (if current_br ≠ br then [⟨12416, write_dint_registers br⟩] else [])

/-- From heizung3.py `SPSReader.wait_for_data_ready`: one retry round.
`oracle k` is the outcome of the k-th `read_holding_registers(12320, 32)`
call (`none` models `result.isError()`); the status word is register
index `14 * 2 = 28` and the ready flag is bit 0x20. The `time.sleep(1.2)`
between readings has no effect on the returned value and is not modelled. -/
def waitLoop (oracle : ℕ → Option (List ℕ)) : ℕ → ℕ → Bool
  | 0, _ => false
  | fuel + 1, retry =>
    match oracle retry with
    | none => false
    | some registers =>
      if registers.getD 28 0 &&& 0x20 ≠ 0 then true
      else waitLoop oracle fuel (retry + 1)

/-- From heizung3.py `SPSReader.wait_for_data_ready(max_retries=10)`. -/
def wait_for_data_ready (oracle : ℕ → Option (List ℕ)) (max_retries : ℕ) : Bool :=
  waitLoop oracle max_retries 0

/-- Outcome skeleton of one `run_sync` poll cycle: the register writes
performed, whether the sensor decode pass ran, and whether a history
record was inserted into the database. -/
structure CycleResult where
  register_writes : List WriteReq
  decoded : Bool
  persisted : Bool

/-- Effect skeleton of heizung3.py `run_sync`, restricted to the ordering
the claims are about: the corrective override writes (CONFIG values
WW=0, HK=0, BRUNNEN=-1) and the hour-of-day write to 12288 happen before
`wait_for_data_ready`; when the ready flag is never seen the function
returns before the sensor decode and before the database insert. The coil
test writes and the diagnostic reads are omitted, and the success path
assumes the post-ready measurement read succeeds. -/
def run_sync_model (override_regs : List ℕ) (hour : ℕ)
    (oracle : ℕ → Option (List ℕ)) : CycleResult :=
  let override_writes := check_overrides override_regs 0 0 (-1)
  let writes := override_writes ++ [⟨12288, [hour]⟩]
  if wait_for_data_ready oracle 10 then
    { register_writes := writes, decoded := true, persisted := true }
  else
    { register_writes := writes, decoded := false, persisted := false }

end Heizung3

section Helpers

/-- The low bit of a bitwise or. -/
theorem or_mod_two_eq_one (a b : ℕ) : (a ||| b) % 2 = 1 ↔ a % 2 = 1 ∨ b % 2 = 1 := by
  have h := congrArg (fun t => t = true) (Nat.testBit_lor a b 0)
  simp only [Nat.testBit_zero, decide_eq_true_eq, Bool.or_eq_true, eq_iff_iff] at h
  exact h

/-- Bitwise or of disjoint parts is addition: `a * 2 ^ n ||| b = a * 2 ^ n + b`
whenever `b` fits in the low `n` bits. -/
theorem mul_two_pow_or_eq_add : ∀ (n a b : ℕ), b < 2 ^ n → a * 2 ^ n ||| b = a * 2 ^ n + b := by
  intro n
  induction n with
  | zero =>
    intro a b hb
    have hb0 : b = 0 := by omega
    subst hb0
    simp
  | succ n ih =>
    intro a b hb
    have h2 : (2 : ℕ) ^ (n + 1) = 2 ^ n * 2 := pow_succ 2 n
    have hdiv : (a * 2 ^ (n + 1) ||| b) / 2 = a * 2 ^ n ||| b / 2 := by
      rw [Nat.or_div_two, h2, ← Nat.mul_assoc, Nat.mul_div_cancel _ (by norm_num)]
    have heven : a * 2 ^ (n + 1) % 2 = 0 := by
      rw [h2, ← Nat.mul_assoc]
      exact Nat.mul_mod_left _ _
    have hmod : (a * 2 ^ (n + 1) ||| b) % 2 = b % 2 := by
      have h1 := or_mod_two_eq_one (a * 2 ^ (n + 1)) b
      omega
    have hb2 : b / 2 < 2 ^ n := by omega
    have hih := ih a (b / 2) hb2
    have hdm := Nat.div_add_mod (a * 2 ^ (n + 1) ||| b) 2
    have hmul : a * 2 ^ (n + 1) = 2 * (a * 2 ^ n) := by rw [h2]; ring
    omega

/-- The 32-bit compose used by `get_dint`: `(high <<< 16) ||| low` is plain
positional arithmetic when `low` fits in 16 bits. -/
theorem shiftLeft_sixteen_or (h l : ℕ) (hl : l < 65536) :
    (h <<< 16) ||| l = 65536 * h + l := by
  have h16 : (2 : ℕ) ^ 16 = 65536 := by norm_num
  have hadd := mul_two_pow_or_eq_add 16 h l (by omega)
  rw [h16, Nat.mul_comm h 65536] at hadd
  rw [Nat.shiftLeft_eq, h16, Nat.mul_comm h 65536]
  exact hadd

/-- `get_dint` on a two-element register list, unfolded. -/
theorem get_dint_pair (low high : ℕ) :
    Heizung3.get_dint [low, high] 0 =
      if (high <<< 16) ||| low ≥ 0x80000000
      then ((high <<< 16) ||| low : ℤ) - 0x100000000
      else ((high <<< 16) ||| low : ℤ) := rfl

/-- `round2` is the identity on a rational whose hundredfold is an integer. -/
theorem round2_eq_self_of_mul_int (q : ℚ) (n : ℤ) (h : q * 100 = (n : ℚ)) :
    round2 q = q := by
  unfold round2
  rw [h, round_intCast, eq_comm, eq_div_iff (by norm_num : (100 : ℚ) ≠ 0)]
  linarith [h]

/-- The PT1000 linear value `(r - 7134) / 25` already has two decimal
places, so the inline rounding does not change it. -/
theorem round2_pt1000 (r : ℕ) :
    round2 (((r : ℚ) - 7134) / 25) = ((r : ℚ) - 7134) / 25 := by
  apply round2_eq_self_of_mul_int _ (4 * (r : ℤ) - 28536)
  push_cast
  ring

/-- Rounding 1/60 to two decimal places yields 0.02. -/
theorem round2_one_sixtieth : round2 (1 / 60 : ℚ) = 1 / 50 := by
  unfold round2
  rw [show (1 / 60 : ℚ) * 100 = 5 / 3 by norm_num, round_eq,
    show (5 / 3 : ℚ) + 1 / 2 = 13 / 6 by norm_num,
    show ⌊(13 / 6 : ℚ)⌋ = 2 by rw [Int.floor_eq_iff]; norm_num]
  norm_num

end Helpers

/-- C2: for every 16-bit word `w`, decoding it as a signed value with
`to_int` and re-encoding with `to_uint` returns `w`, in both the
wagostatus.py and the wagoglobal.py variants. -/
theorem to_int_to_uint_roundtrip (w : ℤ) (h0 : 0 ≤ w) (h1 : w ≤ 65535) :
    Wagostatus.to_uint (Wagostatus.to_int w) = w ∧
    Wagoglobal.to_uint (Wagoglobal.to_int w) = w := by
  unfold Wagostatus.to_uint Wagostatus.to_int Wagoglobal.to_uint Wagoglobal.to_int
  constructor <;> (split_ifs <;> omega)

/-- Witness for C2 at `w = 40000` (a word whose signed decode is negative). -/
theorem to_int_to_uint_roundtrip_witness :
    Wagostatus.to_uint (Wagostatus.to_int 40000) = 40000 ∧
    Wagoglobal.to_uint (Wagoglobal.to_int 40000) = 40000 :=
  to_int_to_uint_roundtrip 40000 (by norm_num) (by norm_num)

/-- C10: every sanitized reason byte lies in `[0, 255]`, for heizung2.py's
`sanitize_reason_byte`/`read_reason_bytes` and for heizung3.py's masked
`read_reason_bytes`, whatever integer the 32-bit decode produced. -/
theorem reason_bytes_byte_range (v : ℤ) (registers : List ℕ) :
    (0 ≤ Heizung2.sanitize_reason_byte v ∧ Heizung2.sanitize_reason_byte v ≤ 255) ∧
    (0 ≤ (Heizung2.read_reason_bytes registers).1 ∧
      (Heizung2.read_reason_bytes registers).1 ≤ 255 ∧
      0 ≤ (Heizung2.read_reason_bytes registers).2.1 ∧
      (Heizung2.read_reason_bytes registers).2.1 ≤ 255 ∧
      0 ≤ (Heizung2.read_reason_bytes registers).2.2 ∧
      (Heizung2.read_reason_bytes registers).2.2 ≤ 255) ∧
    (0 ≤ (Heizung3.read_reason_bytes registers).1 ∧
      (Heizung3.read_reason_bytes registers).1 ≤ 255 ∧
      0 ≤ (Heizung3.read_reason_bytes registers).2.1 ∧
      (Heizung3.read_reason_bytes registers).2.1 ≤ 255 ∧
      0 ≤ (Heizung3.read_reason_bytes registers).2.2 ∧
      (Heizung3.read_reason_bytes registers).2.2 ≤ 255) := by
  have hs : ∀ u : ℤ, 0 ≤ Heizung2.sanitize_reason_byte u ∧ Heizung2.sanitize_reason_byte u ≤ 255 := by
    intro u
    unfold Heizung2.sanitize_reason_byte
    split_ifs <;> omega
  refine ⟨hs v, ?_, ?_⟩
  · simp only [Heizung2.read_reason_bytes]
    exact ⟨(hs _).1, (hs _).2, (hs _).1, (hs _).2, (hs _).1, (hs _).2⟩
  · simp only [Heizung3.read_reason_bytes]
    refine ⟨?_, ?_, ?_, ?_, ?_, ?_⟩ <;> omega

/-- C3: `get_dint` reconstructs the standard 32-bit two's-complement value
from a (low, high) register pair: arithmetically it is
`65536 * high + low`, reduced by `2^32` when at or above `2^31`; the result
always lies in `[-2^31, 2^31 - 1]`; the two documented examples hold; and
the heizung2.py and heizung3.py implementations coincide. -/
theorem get_dint_twos_complement (low high : ℕ) (hl : low < 65536) (hh : high < 65536) :
    (Heizung3.get_dint [low, high] 0 =
      if 65536 * (high : ℤ) + low ≥ 2147483648
      then 65536 * (high : ℤ) + low - 4294967296
      else 65536 * (high : ℤ) + low) ∧
    (-2147483648 ≤ Heizung3.get_dint [low, high] 0 ∧
      Heizung3.get_dint [low, high] 0 ≤ 2147483647) ∧
    Heizung3.get_dint [65535, 65535] 0 = -1 ∧
    Heizung3.get_dint [1, 0] 0 = 1 ∧
    (∀ (registers : List ℕ) (index : ℕ),
      Heizung2.get_dint registers index = Heizung3.get_dint registers index) := by
  have key : (high <<< 16) ||| low = 65536 * high + low := shiftLeft_sixteen_or high low hl
  have hchar : Heizung3.get_dint [low, high] 0 =
      if 65536 * (high : ℤ) + low ≥ 2147483648
      then 65536 * (high : ℤ) + low - 4294967296
      else 65536 * (high : ℤ) + low := by
    rw [get_dint_pair, key]
    have hcast : ((65536 * high + low : ℕ) : ℤ) = 65536 * (high : ℤ) + low := by push_cast; ring
    have hcond : ((65536 * high + low : ℕ) ≥ 0x80000000) ↔
        (65536 * (high : ℤ) + low ≥ 2147483648) := by omega
    exact if_congr hcond (by rw [hcast]) hcast
  refine ⟨hchar, ?_, by decide, by decide, fun _ _ => rfl⟩
  rw [hchar]
  split_ifs <;> omega

/-- Witness for C3 at the documented inputs `(1, 0)` and `(0xFFFF, 0xFFFF)`. -/
theorem get_dint_twos_complement_witness :
    (-2147483648 ≤ Heizung3.get_dint [1, 0] 0 ∧
      Heizung3.get_dint [1, 0] 0 ≤ 2147483647) ∧
    Heizung3.get_dint [65535, 65535] 0 = -1 ∧
    Heizung3.get_dint [1, 0] 0 = 1 :=
  ⟨(get_dint_twos_complement 1 0 (by norm_num) (by norm_num)).2.1,
   (get_dint_twos_complement 1 0 (by norm_num) (by norm_num)).2.2.1,
   (get_dint_twos_complement 1 0 (by norm_num) (by norm_num)).2.2.2.1⟩

/-- C1 (amended): inside the open window `4000 < raw < 25000` both variants
return the exact linear value `(raw - 7134) / 25`; at the boundaries the
two variants differ: heizung2.py (strict window) maps 3999, 4000 and 25000
to the 0.0 sentinel, while heizung3.py (inclusive window) maps 3999 to the
sentinel but computes the linear value at 4000 and at 25000. -/
theorem calc_pt1000_window_and_boundaries (r : ℕ) (h1 : 4000 < r) (h2 : r < 25000) :
    (Heizung2.calc_pt1000 r = ((r : ℚ) - 7134) / 25 ∧
     Heizung3.calc_pt1000 r = ((r : ℚ) - 7134) / 25) ∧
    (Heizung2.calc_pt1000 3999 = 0 ∧ Heizung2.calc_pt1000 4000 = 0 ∧
     Heizung2.calc_pt1000 25000 = 0) ∧
    (Heizung3.calc_pt1000 3999 = 0 ∧
     Heizung3.calc_pt1000 4000 = -3134 / 25 ∧
     Heizung3.calc_pt1000 25000 = 17866 / 25) := by
  refine ⟨⟨?_, ?_⟩, ⟨?_, ?_, ?_⟩, ⟨?_, ?_, ?_⟩⟩
  · unfold Heizung2.calc_pt1000
    rw [if_pos ⟨h1, h2⟩, round2_pt1000]
  · unfold Heizung3.calc_pt1000
    rw [if_neg (by omega), round2_pt1000]
  · norm_num [Heizung2.calc_pt1000]
  · norm_num [Heizung2.calc_pt1000]
  · norm_num [Heizung2.calc_pt1000]
  · norm_num [Heizung3.calc_pt1000]
  · unfold Heizung3.calc_pt1000
    rw [if_neg (by omega), round2_pt1000]
    norm_num
  · unfold Heizung3.calc_pt1000
    rw [if_neg (by omega), round2_pt1000]
    norm_num

/-- Counterexample for C1 as frozen: heizung3.py computes a temperature at
`raw = 25000` instead of returning the invalid sentinel 0.0. -/
theorem calc_pt1000_upper_boundary_not_sentinel :
    Heizung3.calc_pt1000 25000 = 17866 / 25 ∧ (17866 / 25 : ℚ) ≠ 0 := by
  constructor
  · unfold Heizung3.calc_pt1000
    rw [if_neg (by omega), round2_pt1000]
    norm_num
  · norm_num

/-- Witness for C1 (amended) at the in-window input `raw = 10000`. -/
theorem calc_pt1000_window_and_boundaries_witness :
    Heizung2.calc_pt1000 10000 = ((10000 : ℚ) - 7134) / 25 ∧
    Heizung3.calc_pt1000 10000 = ((10000 : ℚ) - 7134) / 25 :=
  (calc_pt1000_window_and_boundaries 10000 (by norm_num) (by norm_num)).1

/-- C9 (amended): the two-decimal rounding happens inside the calibration
functions themselves. For the PT1000 formula it is the identity, so the
in-window output equals the unrounded linear value; for the solar formula
the output is the rounded value and differs from the unrounded linear
result, e.g. at `raw = 26403` where the function returns 0.02 but the
linear value is 1/60. -/
theorem calibration_rounding_inline (r : ℕ) (h1 : 4000 ≤ r) (h2 : r ≤ 25000) :
    Heizung3.calc_pt1000 r = ((r : ℚ) - 7134) / 25 ∧
    Heizung3.calc_ntc_solar 26403 = round2 (((26403 : ℚ) - 26402) / 60) ∧
    Heizung3.calc_ntc_solar 26403 = 1 / 50 ∧
    ((26403 : ℚ) - 26402) / 60 = 1 / 60 ∧
    (1 / 50 : ℚ) ≠ 1 / 60 := by
  refine ⟨?_, ?_, ?_, by norm_num, by norm_num⟩
  · unfold Heizung3.calc_pt1000
    rw [if_neg (by omega), round2_pt1000]
  · unfold Heizung3.calc_ntc_solar
    rw [if_neg (by omega)]
    norm_num
  · unfold Heizung3.calc_ntc_solar
    rw [if_neg (by omega),
      show (((26403 : ℕ) : ℚ) - 26402) / 60 = 1 / 60 by push_cast; norm_num,
      round2_one_sixtieth]

/-- Counterexample for C9 as frozen: at the in-window input `raw = 26403`
the solar transfer function returns the rounded value 0.02, not the
unrounded linear result 1/60. -/
theorem calc_ntc_solar_not_unrounded :
    Heizung3.calc_ntc_solar 26403 ≠ ((26403 : ℚ) - 26402) / 60 := by
  unfold Heizung3.calc_ntc_solar
  rw [if_neg (by omega),
    show (((26403 : ℕ) : ℚ) - 26402) / 60 = 1 / 60 by push_cast; norm_num,
    round2_one_sixtieth]
  norm_num

/-- Witness for C9 (amended) at `r = 10000`. -/
theorem calibration_rounding_inline_witness :
    Heizung3.calc_pt1000 10000 = ((10000 : ℚ) - 7134) / 25 ∧
    Heizung3.calc_ntc_solar 26403 = 1 / 50 :=
  ⟨(calibration_rounding_inline 10000 (by norm_num) (by norm_num)).1,
   (calibration_rounding_inline 10000 (by norm_num) (by norm_num)).2.2.1⟩

set_option maxRecDepth 8192 in
/-- C4 (amended): wagostatus.py and wagoglobal.py apply the polarity table
(WW bit 1 and HK bit 2 inverted, BR bit 3 normal): a clear inverted bit
reports on, a clear normal bit reports off, and output byte 0x02 reports
the hot-water pump off. heizung3.py's `read_physical_outputs` applies no
inversion: a clear bit always reports off and byte 0x02 reports the
hot-water pump on. -/
theorem actuator_polarity_resolution : ∀ qb0 : ℕ, qb0 < 256 →
    (qb0 &&& 0x02 = 0 → Wagostatus.ww_on qb0 = true ∧ Wagoglobal.ww_on qb0 = true ∧
      (Heizung3.read_physical_outputs [qb0]).1 = false) ∧
    (qb0 &&& 0x04 = 0 → Wagostatus.hk_on qb0 = true ∧ Wagoglobal.hk_on qb0 = true ∧
      (Heizung3.read_physical_outputs [qb0]).2.1 = false) ∧
    (qb0 &&& 0x08 = 0 → Wagostatus.br_on qb0 = false ∧ Wagoglobal.br_on qb0 = false ∧
      (Heizung3.read_physical_outputs [qb0]).2.2 = false) ∧
    (Wagostatus.ww_on 0x02 = false ∧ Wagoglobal.ww_on 0x02 = false ∧
      (Heizung3.read_physical_outputs [0x02]).1 = true) := by
  decide

/-- Counterexample for C4 as frozen: at output byte 0x02 the resolver in
heizung3.py reports the hot-water pump as physically on, not off, because
that variant applies no polarity inversion. -/
theorem heizung3_outputs_not_inverted :
    (Heizung3.read_physical_outputs [0x02]).1 = true ∧
    Wagostatus.ww_on 0x02 = false := by
  decide

/-- Witness for C4 (amended) at `qb0 = 0` (all channel bits clear). -/
theorem actuator_polarity_resolution_witness :
    Wagostatus.ww_on 0 = true ∧ Wagoglobal.ww_on 0 = true ∧
    (Heizung3.read_physical_outputs [0]).1 = false :=
  (actuator_polarity_resolution 0 (by norm_num)).1 (by norm_num)

set_option maxRecDepth 8192 in
/-- C5: the heating-circuit reason decoder, over every 8-bit mask, in both
the heizung2.py and heizung3.py variants: any mask with a bit outside 0x07
set reports the ACTUATOR fallback regardless of the other bits; every
remaining mask is one of 0x00–0x07, enumerated exhaustively below — mask
0x00 reports the off/no-demand result, and each nonzero in-set mask is
decoded to exactly the named causes of its set bits, appended in the fixed
order frost-protection, heat-demand, override and joined with the
separator (in particular 0x03 gives frost-protection then heat-demand). -/
theorem decode_reason_hk_fixed_order :
    (∀ r : ℕ, r < 256 → r &&& 0xF8 ≠ 0 →
      Heizung2.decode_reason_hk r = "ACTUATOR" ∧
      Heizung3.decode_reason_hk r =
        "0x" ++ Heizung3.toHex2 r ++ " - ACTUATOR-Logik (MIN_ONTIME/MIN_OFFTIME/RUN_EVERY)") ∧
    (Heizung2.decode_reason_hk 0x00 = "Aus" ∧
     Heizung2.decode_reason_hk 0x01 = "Frost" ∧
     Heizung2.decode_reason_hk 0x02 = "Wärme" ∧
     Heizung2.decode_reason_hk 0x03 = "Frost+Wärme" ∧
     Heizung2.decode_reason_hk 0x04 = "Override" ∧
     Heizung2.decode_reason_hk 0x05 = "Frost+Override" ∧
     Heizung2.decode_reason_hk 0x06 = "Wärme+Override" ∧
     Heizung2.decode_reason_hk 0x07 = "Frost+Wärme+Override") ∧
    (Heizung3.decode_reason_hk 0x00 = "0x00 - AUS (keine Anforderung)" ∧
     Heizung3.decode_reason_hk 0x01 = "0x01 - Frostschutz(AT<3°C)" ∧
     Heizung3.decode_reason_hk 0x02 = "0x02 - Wärmebedarf" ∧
     Heizung3.decode_reason_hk 0x03 = "0x03 - Frostschutz(AT<3°C), Wärmebedarf" ∧
     Heizung3.decode_reason_hk 0x04 = "0x04 - Override" ∧
     Heizung3.decode_reason_hk 0x05 = "0x05 - Frostschutz(AT<3°C), Override" ∧
     Heizung3.decode_reason_hk 0x06 = "0x06 - Wärmebedarf, Override" ∧
     Heizung3.decode_reason_hk 0x07 = "0x07 - Frostschutz(AT<3°C), Wärmebedarf, Override") := by
  decide

/-- Witness for C5 at the out-of-set mask `0x08`. -/
theorem decode_reason_hk_fixed_order_witness :
    Heizung2.decode_reason_hk 8 = "ACTUATOR" ∧
    Heizung3.decode_reason_hk 8 =
      "0x" ++ Heizung3.toHex2 8 ++ " - ACTUATOR-Logik (MIN_ONTIME/MIN_OFFTIME/RUN_EVERY)" :=
  decode_reason_hk_fixed_order.1 8 (by norm_num) (by decide)

set_option maxRecDepth 8192 in
/-- C6 (amended): the manual-override bit 0x80 lies outside every
actuator's known-bit set, so any mask containing it is decoded to the
ACTUATOR (unrecognized-combination) fallback by all five reason decoders;
no decoder appends a manual-override cause for bit 0x80. -/
theorem override_bit_hits_actuator_fallback : ∀ r : ℕ, r < 256 → r &&& 0x80 ≠ 0 →
    Heizung2.decode_reason_ww r = "ACTUATOR" ∧
    Heizung2.decode_reason_hk r = "ACTUATOR" ∧
    Heizung2.decode_reason_br r = "ACTUATOR" ∧
    Heizung3.decode_reason_ww r =
      "0x" ++ Heizung3.toHex2 r ++ " - ACTUATOR-Logik (MIN_ONTIME/RUN_EVERY)" ∧
    Heizung3.decode_reason_hk r =
      "0x" ++ Heizung3.toHex2 r ++ " - ACTUATOR-Logik (MIN_ONTIME/MIN_OFFTIME/RUN_EVERY)" ∧
    Heizung3.decode_reason_br r =
      "0x" ++ Heizung3.toHex2 r ++ " - ACTUATOR-Logik (MIN_ONTIME/RUN_EVERY)" := by
  decide

/-- Counterexample for C6 as frozen: at mask 0x81 (override bit plus a
known cause bit) the decoders cited by the claim all fall into the
unrecognized-combination fallback instead of appending an override cause
to the causes of the remaining bits. -/
theorem override_bit_not_appended :
    Heizung3.decode_reason_hk 0x81 =
      "0x81 - ACTUATOR-Logik (MIN_ONTIME/MIN_OFFTIME/RUN_EVERY)" ∧
    Heizung2.decode_reason_ww 0x81 = "ACTUATOR" ∧
    Heizung2.decode_reason_br 0x81 = "ACTUATOR" := by
  decide

/-- Witness for C6 (amended) at mask `0x80`. -/
theorem override_bit_hits_actuator_fallback_witness :
    Heizung2.decode_reason_ww 128 = "ACTUATOR" ∧
    Heizung2.decode_reason_hk 128 = "ACTUATOR" ∧
    Heizung2.decode_reason_br 128 = "ACTUATOR" ∧
    Heizung3.decode_reason_ww 128 =
      "0x" ++ Heizung3.toHex2 128 ++ " - ACTUATOR-Logik (MIN_ONTIME/RUN_EVERY)" ∧
    Heizung3.decode_reason_hk 128 =
      "0x" ++ Heizung3.toHex2 128 ++ " - ACTUATOR-Logik (MIN_ONTIME/MIN_OFFTIME/RUN_EVERY)" ∧
    Heizung3.decode_reason_br 128 =
      "0x" ++ Heizung3.toHex2 128 ++ " - ACTUATOR-Logik (MIN_ONTIME/RUN_EVERY)" :=
  override_bit_hits_actuator_fallback 128 (by norm_num) (by decide)

/-- C7: the override writer is corrective, not imperative: for each pump,
when the current setpoint read back from the controller equals the desired
mode no write to that pump's address occurs, and when it differs exactly
one write of the desired mode is issued; the value written is the 32-bit
signed (two's-complement) encoding, with Auto encoded as 0, a positive
mode as its positive image and a negative mode as its sign-extended image,
and decoding the written word pair recovers the value exactly. -/
theorem override_writer_corrective (registers : List ℕ) (ww hk br : ℤ) :
    (Heizung3.get_dint registers 0 = ww →
      (Heizung3.check_overrides registers ww hk br).filter
        (fun w => w.address == 12412) = []) ∧
    (Heizung3.get_dint registers 0 ≠ ww →
      (Heizung3.check_overrides registers ww hk br).filter
        (fun w => w.address == 12412) = [⟨12412, Heizung3.write_dint_registers ww⟩]) ∧
    (Heizung3.get_dint registers 1 = hk →
      (Heizung3.check_overrides registers ww hk br).filter
        (fun w => w.address == 12414) = []) ∧
    (Heizung3.get_dint registers 1 ≠ hk →
      (Heizung3.check_overrides registers ww hk br).filter
        (fun w => w.address == 12414) = [⟨12414, Heizung3.write_dint_registers hk⟩]) ∧
    (Heizung3.get_dint registers 2 = br →
      (Heizung3.check_overrides registers ww hk br).filter
        (fun w => w.address == 12416) = []) ∧
    (Heizung3.get_dint registers 2 ≠ br →
      (Heizung3.check_overrides registers ww hk br).filter
        (fun w => w.address == 12416) = [⟨12416, Heizung3.write_dint_registers br⟩]) ∧
    (∀ v : ℤ, -2147483648 ≤ v → v < 2147483648 →
      Heizung3.get_dint [(Heizung3.write_dint_registers v).getD 1 0,
                         (Heizung3.write_dint_registers v).getD 0 0] 0 = v) ∧
    (Heizung3.write_dint_registers 0 = [0, 0] ∧
     Heizung3.write_dint_registers 1 = [0, 1] ∧
     Heizung3.write_dint_registers (-1) = [65535, 65535]) := by
  refine ⟨?_, ?_, ?_, ?_, ?_, ?_, ?_, by decide⟩
  · intro h
    simp only [Heizung3.check_overrides, List.filter_append, h, ne_eq, not_true_eq_false,
      if_false, List.filter_nil, List.nil_append]
    split_ifs <;> simp [List.filter]
  · intro h
    simp only [Heizung3.check_overrides, List.filter_append, ne_eq, h, not_false_eq_true,
      if_true]
    split_ifs <;> simp [List.filter]
  · intro h
    simp only [Heizung3.check_overrides, List.filter_append, h, ne_eq, not_true_eq_false,
      if_false, List.filter_nil]
    split_ifs <;> simp [List.filter]
  · intro h
    simp only [Heizung3.check_overrides, List.filter_append, ne_eq, h, not_false_eq_true,
      if_true]
    split_ifs <;> simp [List.filter]
  · intro h
    simp only [Heizung3.check_overrides, List.filter_append, h, ne_eq, not_true_eq_false,
      if_false, List.filter_nil, List.append_nil]
    split_ifs <;> simp [List.filter]
  · intro h
    simp only [Heizung3.check_overrides, List.filter_append, ne_eq, h, not_false_eq_true,
      if_true]
    split_ifs <;> simp [List.filter]
  · intro v h1 h2
    have hlist : Heizung3.write_dint_registers v =
        [(v % 4294967296).toNat / 65536, (v % 4294967296).toNat % 65536] := rfl
    rw [hlist]
    simp only [List.getD_cons_zero, List.getD_cons_succ]
    rw [get_dint_pair]
    have hlow : (v % 4294967296).toNat % 65536 < 65536 := Nat.mod_lt _ (by norm_num)
    rw [shiftLeft_sixteen_or _ _ hlow, Nat.div_add_mod]
    have hu : ((v % 4294967296).toNat : ℤ) = v % 4294967296 :=
      Int.toNat_of_nonneg (Int.emod_nonneg v (by norm_num))
    split_ifs <;> omega

/-- Witness for C7 with all-zero current setpoints and desired modes
`(0, 0, -1)` (the CONFIG defaults): no write for the hot-water pump,
exactly one ForceOff write for the well pump. -/
theorem override_writer_corrective_witness :
    (Heizung3.check_overrides [0, 0, 0, 0, 0, 0] 0 0 (-1)).filter
      (fun w => w.address == 12412) = [] ∧
    (Heizung3.check_overrides [0, 0, 0, 0, 0, 0] 0 0 (-1)).filter
      (fun w => w.address == 12416) = [⟨12416, Heizung3.write_dint_registers (-1)⟩] ∧
    Heizung3.get_dint [(Heizung3.write_dint_registers (-1)).getD 1 0,
                       (Heizung3.write_dint_registers (-1)).getD 0 0] 0 = -1 :=
  ⟨(override_writer_corrective [0, 0, 0, 0, 0, 0] 0 0 (-1)).1 (by decide),
   (override_writer_corrective [0, 0, 0, 0, 0, 0] 0 0 (-1)).2.2.2.2.2.1 (by decide),
   (override_writer_corrective [0, 0, 0, 0, 0, 0] 0 0 (-1)).2.2.2.2.2.2.1
     (-1) (by norm_num) (by norm_num)⟩

/-- The bounded data-ready wait returns false when every consulted reading
within the retry budget has the ready bit clear. -/
theorem waitLoop_false (oracle : ℕ → Option (List ℕ)) :
    ∀ (fuel start : ℕ),
      (∀ k, start ≤ k → k < start + fuel → ∀ registers, oracle k = some registers →
        registers.getD 28 0 &&& 0x20 = 0) →
      Heizung3.waitLoop oracle fuel start = false := by
  intro fuel
  induction fuel with
  | zero => intro start h; rfl
  | succ n ih =>
    intro start h
    cases ho : oracle start with
    | none => simp [Heizung3.waitLoop, ho]
    | some registers =>
      have hbit := h start (le_refl _) (by omega) registers ho
      simp only [Heizung3.waitLoop, ho, hbit, ne_eq, not_true_eq_false, if_false]
      exact ih (start + 1) (fun k hk1 hk2 => h k (by omega) (by omega))

/-- C8 (amended): a poll cycle in which the ready bit is never observed
set within the 10-attempt retry budget aborts: the sensor decode pass does
not run and no history record is persisted; the timeout is not retried
(the model consults the wait exactly once). Register writes issued before
the handshake (the override corrections and the hour-of-day write) have
already been performed by that point and are not rolled back. -/
theorem handshake_timeout_aborts (oracle : ℕ → Option (List ℕ))
    (override_regs : List ℕ) (hour : ℕ)
    (h : ∀ k, k < 10 → ∀ registers, oracle k = some registers →
      registers.getD 28 0 &&& 0x20 = 0) :
    Heizung3.wait_for_data_ready oracle 10 = false ∧
    (Heizung3.run_sync_model override_regs hour oracle).decoded = false ∧
    (Heizung3.run_sync_model override_regs hour oracle).persisted = false ∧
    (Heizung3.run_sync_model override_regs hour oracle).register_writes =
      Heizung3.check_overrides override_regs 0 0 (-1) ++ [⟨12288, [hour]⟩] := by
  have hwait : Heizung3.wait_for_data_ready oracle 10 = false :=
    waitLoop_false oracle 10 0 (fun k hk1 hk2 => h k (by omega))
  refine ⟨hwait, ?_, ?_, ?_⟩ <;> simp [Heizung3.run_sync_model, hwait]

/-- Counterexample for C8 as frozen: a concrete cycle whose ready bit is
never set aborts without decode or persist, yet has already performed two
register writes (the well-pump override correction and the hour write), so
the timed-out cycle did not occur "without any write-back". -/
theorem timed_out_cycle_still_wrote :
    (Heizung3.run_sync_model (List.replicate 6 0) 12
      (fun _ => some (List.replicate 32 0))).decoded = false ∧
    (Heizung3.run_sync_model (List.replicate 6 0) 12
      (fun _ => some (List.replicate 32 0))).persisted = false ∧
    (Heizung3.run_sync_model (List.replicate 6 0) 12
      (fun _ => some (List.replicate 32 0))).register_writes.length = 2 := by
  decide

/-- Witness for C8 (amended) with an oracle whose reads all fail. -/
theorem handshake_timeout_aborts_witness :
    Heizung3.wait_for_data_ready (fun _ => none) 10 = false ∧
    (Heizung3.run_sync_model [] 0 (fun _ => none)).decoded = false ∧
    (Heizung3.run_sync_model [] 0 (fun _ => none)).persisted = false ∧
    (Heizung3.run_sync_model [] 0 (fun _ => none)).register_writes =
      Heizung3.check_overrides [] 0 0 (-1) ++ [⟨12288, [0]⟩] :=
  handshake_timeout_aborts (fun _ => none) [] 0
    (fun _ _ _ hreg => Option.noConfusion hreg)
